import Mathlib

/-!
Verification of the `tela` AI-companion workflow core against its
natural-language specification.  The Python source under
`src/ai_companion/` is shallowly embedded: each Python function that a
claim depends on becomes an executable Lean definition translated from
the source, and the claims become theorems about those definitions.
Python `bytes` payloads are modelled as `List Nat`, Python exceptions as
explicit error values, and external network collaborators as explicit
parameters carrying the collaborator's outcome.
-/

set_option autoImplicit false

namespace Tela

/-! ### Schedule module: `modules/schedules/context_generation.py`

`ScheduleContextGenerator._parse_time_range` splits a `"HH:MM-HH:MM"`
string on `"-"` and parses each side with `strptime("%H:%M")`; the
embedding returns `none` where `strptime`/unpacking would raise.
Times are `(hour, minute)` pairs; Python `datetime.time` objects compare
lexicographically on their components, which is what `timeLE`/`timeLT`
implement. -/

/-- A wall-clock time of day, as parsed from `"%H:%M"`. -/
structure TimeOfDay where
  hour : Nat
  minute : Nat
deriving DecidableEq, Repr

/-- Lexicographic `<=` on `datetime.time` values (hour, then minute). -/
def timeLE (a b : TimeOfDay) : Bool :=
  a.hour < b.hour || (a.hour = b.hour && a.minute ≤ b.minute)

/-- Lexicographic `<` on `datetime.time` values (hour, then minute). -/
def timeLT (a b : TimeOfDay) : Bool :=
  a.hour < b.hour || (a.hour = b.hour && a.minute < b.minute)

/-- `str.split(sep)` for a one-character separator, on the character
list of the string (both separators used by the source, `":"` and
`"-"`, are single characters). -/
def splitOnChar (sep : Char) : List Char → List (List Char)
  | [] => [[]]
  | c :: rest =>
    if c = sep then [] :: splitOnChar sep rest
    else
      match splitOnChar sep rest with
      | [] => [[c]]
      | x :: xs => (c :: x) :: xs

/-- One decimal digit, or `none`. -/
def charDigit (c : Char) : Option Nat :=
  if 48 ≤ c.toNat && c.toNat ≤ 57 then some (c.toNat - 48) else none

/-- Accumulate decimal digits left to right; `none` on a non-digit. -/
def digitsToNatAux : List Char → Nat → Option Nat
  | [], acc => some acc
  | c :: rest, acc =>
    match charDigit c with
    | some d => digitsToNatAux rest (acc * 10 + d)
    | none => none

/-- A non-empty all-digit numeral, or `none`. -/
def digitsToNat : List Char → Option Nat
  | [] => none
  | l => digitsToNatAux l 0

/-- `datetime.strptime(s, "%H:%M").time()`: two colon-separated decimal
fields within the valid hour/minute ranges; `none` models the
`ValueError` that `strptime` raises on anything else. -/
def parseTimeStr (s : String) : Option TimeOfDay :=
  match splitOnChar ':' s.data with
  | [hs, ms] =>
    match digitsToNat hs, digitsToNat ms with
    | some h, some m => if h < 24 && m < 60 then some ⟨h, m⟩ else none
    | _, _ => none
  | _ => none

/-- `ScheduleContextGenerator._parse_time_range`: split a range string on
`"-"` into start and end times.  A split that does not yield exactly two
parts models the unpacking `ValueError`. -/
def parseTimeRange (timeRange : String) : Option (TimeOfDay × TimeOfDay) :=
  match splitOnChar '-' timeRange.data with
  | [startStr, endStr] =>
    match parseTimeStr (String.mk startStr), parseTimeStr (String.mk endStr) with
    | some s, some e => some (s, e)
    | _, _ => none
  | _ => none

/-- A day's schedule: the insertion-ordered `{time_range: activity}`
dict from `ai_companion.core.schedules`. -/
def DaySchedule : Type := List (String × String)

/-- `ScheduleContextGenerator.get_current_activity`, lines 46-56: scan
the day's entries in order; for each, parse the range and test
`start_time <= current_time <= end_time` — the source tests the *same*
chain in both the `start_time > end_time` branch and the other branch.
The source obtains the current time from the clock (its
`datetime.time()` call); the embedding takes that time as the `now`
parameter, per the spec contract `current_activity(now)`.  A range the
parser rejects models the exception propagating out of the loop
(`Except.error`). -/
def getCurrentActivity (now : TimeOfDay) : List (String × String) → Except String (Option String)
  | [] => Except.ok none
  | (timeRange, activity) :: rest =>
    match parseTimeRange timeRange with
    | none => Except.error ("time data does not match format: " ++ timeRange)
    | some (startTime, endTime) =>
      if timeLT endTime startTime then
        -- source: `if start_time > end_time:` — wrap-around branch
        if timeLE startTime now && timeLE now endTime then Except.ok (some activity)
        else getCurrentActivity now rest
      else
        if timeLE startTime now && timeLE now endTime then Except.ok (some activity)
        else getCurrentActivity now rest

/-! ### Speech and image modules: `modules/speech/text_to_speech.py`
and `modules/image/text_to_image.py`

Both `synthesize` and `generate_image` validate their text argument
*before* their `try` block, so validation failures surface as plain
`ValueError`s and never reach the external client; every exception
raised inside the `try` is re-wrapped in the module's own error class.
The external collaborator (ElevenLabs / Gemini) is modelled as an
explicit argument carrying either the bytes it would return or the
message of the exception it would raise. -/

/-- The Python exceptions these modules raise (`ValueError` from
validation; the classes from `core/exceptions.py`). -/
inductive PyError
  | valueError (msg : String)
  | textToSpeechError (msg : String)
  | textToImageError (msg : String)
deriving DecidableEq, Repr

/-- Characters removed by Python `str.strip()` (ASCII whitespace). -/
def isPySpace (c : Char) : Bool :=
  c = ' ' || c = '\t' || c = '\n' || c = '\r' || c.toNat = 11 || c.toNat = 12

/-- Python `str.strip()`: drop leading and trailing whitespace. -/
def pyStrip (s : String) : String :=
  String.mk (((s.data.dropWhile isPySpace).reverse.dropWhile isPySpace).reverse)

deriving instance DecidableEq for Except

/-- Outcome of the embedded method: whether the external collaborator
was contacted, and the returned bytes or the raised exception. -/
structure CallOutcome where
  externalCalled : Bool
  result : Except PyError (List Nat)
deriving DecidableEq, Repr

/-- `TextToSpeech.synthesize` (text_to_speech.py lines 44-70).  The
blank check and the 5000-character bound are tested before the `try`
block, raising bare `ValueError`s without creating the ElevenLabs
request; inside the `try`, an exception from the conversion call
(`ext = .error msg`) and the internally raised empty-audio
`TextToSpeechError` are both caught by `except Exception` and re-raised
as `TextToSpeechError("Text-to-speech conversion failed: ...")`. -/
def synthesize (text : String) (ext : Except String (List Nat)) : CallOutcome :=
  if pyStrip text = "" then
    ⟨false, Except.error (PyError.valueError "Input text cannot be empty.")⟩
  else if 5000 < text.length then
    ⟨false, Except.error
      (PyError.valueError "Input length exceeds maximum length of 5000 characters.")⟩
  else
    match ext with
    | Except.error msg =>
      ⟨true, Except.error
        (PyError.textToSpeechError ("Text-to-speech conversion failed: " ++ msg))⟩
    | Except.ok audioData =>
      if audioData = [] then
        ⟨true, Except.error
          (PyError.textToSpeechError
            "Text-to-speech conversion failed: Generated audio is empty")⟩
      else ⟨true, Except.ok audioData⟩

/-- True iff the result is a raised `TextToSpeechError`. -/
def isTextToSpeechError (r : Except PyError (List Nat)) : Bool :=
  match r with
  | Except.error (PyError.textToSpeechError _) => true
  | _ => false

/-- `TextToImage.generate_image` (text_to_image.py lines 49-78).  The
blank-prompt `ValueError` is raised before the `try` block and before
the Gemini client property is touched; any exception inside the `try`
(the generation call, the base64 decode, the optional file write —
modelled together by `ext = .error msg`) is re-raised as
`TextToImageError("Failed to generate image: ...")`. -/
def generate_image (prompt : String) (ext : Except String (List Nat)) : CallOutcome :=
  if pyStrip prompt = "" then
    ⟨false, Except.error (PyError.valueError "Prompt cannot be empty")⟩
  else
    match ext with
    | Except.error msg =>
      ⟨true, Except.error (PyError.textToImageError ("Failed to generate image: " ++ msg))⟩
    | Except.ok imageData => ⟨true, Except.ok imageData⟩

/-! ### Reply parsing: `graph/utils/helpers.py` and `graph/utils/chains.py`

`remove_asterisk_content` is `re.sub(r"\*.*?\*", "", text).strip()`.
The Python regex engine deletes, left to right, each non-overlapping
shortest span that starts at an `*`, crosses no newline (`.` does not
match `\n`), and ends at the next `*`; an opener without such a closer
is kept, and the result is stripped of surrounding whitespace.
`subAsteriskAux` performs that scan in one pass: its first argument is
`none` outside a candidate span, or `some buf` holding the (reversed)
characters read since a pending opener — `buf` never contains `*` or
`\n`, because either character closes or aborts the candidate. -/

/-- One-pass model of `re.sub(r"\*.*?\*", "", ·)` on a character list. -/
def subAsteriskAux : Option (List Char) → List Char → List Char
  | none, [] => []
  | some buf, [] => '*' :: buf.reverse
  | none, c :: rest =>
    if c = '*' then subAsteriskAux (some []) rest
    else c :: subAsteriskAux none rest
  | some buf, c :: rest =>
    if c = '*' then subAsteriskAux none rest
    else if c = '\n' then ('*' :: buf.reverse) ++ '\n' :: subAsteriskAux none rest
    else subAsteriskAux (some (c :: buf)) rest

/-- `remove_asterisk_content` (helpers.py lines 28-30). -/
def remove_asterisk_content (text : String) : String :=
  pyStrip (String.mk (subAsteriskAux none text.data))

/-- `AsteriskRemovalParser.parse` (helpers.py lines 33-35):
`StrOutputParser.parse` returns the chat model's text unchanged, then
the asterisk spans are removed. -/
def asteriskRemovalParse (text : String) : String :=
  remove_asterisk_content text

/-- `get_character_response_chain` (chains.py lines 24-38) pipes the
chat model through `AsteriskRemovalParser`, so the chain's reply for a
raw model output is the parsed text. -/
def character_response_reply (modelOutput : String) : String :=
  asteriskRemovalParse modelOutput

/-! ### Workflow graph: `graph/graph.py` and `graph/state.py` -/

/-- `AICompanionState` (state.py): `MessagesState` plus the companion
fields; `messages` entries are `(role, content)` pairs and
`audio_buffer` bytes are `List Nat`. -/
structure AICompanionState where
  messages : List (String × String)
  summary : String
  workflow : String
  audio_buffer : List Nat
  image_path : String
  current_activity : String
  apply_activity : Bool
  memory_context : String
deriving DecidableEq, Repr

/-- The three generation stages of the workflow graph. -/
inductive GenStage
  | conversation
  | image
  | audio
deriving DecidableEq, Repr

/-- Modelled from the spec: `select_workflow` lives in
`ai_companion.graph.edges`, which `graph.py` imports but which is not
present under `src/`.  Per the spec, the branch after the
memory-injection stage maps the state's `workflow` field to the matching
generation stage and defaults to `conversation` whenever the field holds
anything other than the `image`/`audio` labels (classification
inconclusive). -/
def select_workflow (state : AICompanionState) : GenStage :=
  if state.workflow = "image" then GenStage.image
  else if state.workflow = "audio" then GenStage.audio
  else GenStage.conversation

/-- LangGraph's reserved entry node name. -/
def startNode : String := "__start__"

/-- LangGraph's reserved exit node name. -/
def endNode : String := "__end__"

/-- The node names registered by `create_workflow_graph`
(graph.py lines 27-33), in registration order — note the audio node is
registered under the name `"audio_mode"`. -/
def workflowGraphNodes : List String :=
  ["memory_extraction_node", "router_node", "context_injection_node",
    "memory_injection_node", "conversation_node", "image_node", "audio_mode"]

/-- The unconditional edges added by `create_workflow_graph`
(graph.py lines 36-39 and 47). -/
def workflowGraphEdges : List (String × String) :=
  [(startNode, "memory_extraction_node"),
    ("memory_extraction_node", "router_node"),
    ("router_node", "context_injection_node"),
    ("context_injection_node", "memory_injection_node"),
    ("summarize_conversation_node", endNode)]

/-- The source nodes of the conditional edges added by
`create_workflow_graph` (graph.py lines 42-45). -/
def workflowConditionalEdgeSources : List String :=
  ["memory_injection_node", "conversation_node", "image_node", "audio_node"]

/-- Every non-reserved node name referenced by an edge or a conditional
edge of the built graph. -/
def referencedNodeNames : List String :=
  (workflowGraphEdges.map Prod.fst ++ workflowGraphEdges.map Prod.snd ++
    workflowConditionalEdgeSources).filter
    (fun n => !(n = startNode || n = endNode))

/-! ### Telegram webhook: `interfaces/telegram/telegram_response.py` -/

/-- Externally visible effects the handler could perform. -/
inductive TgAction
  | invokeGraph (content : String)
  | sendResponse (kind : String)
deriving DecidableEq, Repr

/-- A FastAPI `Response` as built by the handler. -/
structure TgResponse where
  content : String
  statusCode : Nat
deriving DecidableEq, Repr

/-- `telegram_handler` (telegram_response.py lines 27-101).  The route
is registered for POST only; the function first checks
`request.method == "POST"` (line 34) and inside that branch returns
either 403 on a secret-token mismatch or 200 `"Received Telegram data"`
— in both cases before the `try` block that parses the update, invokes
the compiled graph, and sends the response.  `rest` abstracts that
`try` block (lines 39-101), which is reached only when the method is
not POST; the action trace records which effects were performed. -/
def telegram_handler (method : String) (secretHeader secretEnv : Option String)
    (rest : TgResponse × List TgAction) : TgResponse × List TgAction :=
  if method = "POST" then
    if secretHeader ≠ secretEnv then (⟨"Token mismatch", 403⟩, [])
    else (⟨"Received Telegram data", 200⟩, [])
  else rest

end Tela

namespace Tela

/-- C2: the code never matches a midnight-wrapping range.  For the range
`23:00-01:00` the wrap branch is taken (`start > end`), but its test is
the unsatisfiable `start <= t <= end`, so `23:30` and `00:30` fall
through to `none` exactly like `12:00`. -/
theorem c2_wrap_range_never_matches :
    getCurrentActivity ⟨23, 30⟩ [("23:00-01:00", "sleeping")] = Except.ok none ∧
    getCurrentActivity ⟨0, 30⟩ [("23:00-01:00", "sleeping")] = Except.ok none ∧
    getCurrentActivity ⟨12, 0⟩ [("23:00-01:00", "sleeping")] = Except.ok none := by
  refine ⟨rfl, rfl, rfl⟩

/-- C3: boundary times of a wrapping range also return `none` (the claim
quantifies over *every* range).  For a non-wrapping range the inclusive
bounds do hold, shown here at both boundaries of `06:00-07:00`. -/
theorem c3_wrap_boundary_returns_none :
    getCurrentActivity ⟨23, 0⟩ [("23:00-01:00", "sleeping")] = Except.ok none ∧
    getCurrentActivity ⟨1, 0⟩ [("23:00-01:00", "sleeping")] = Except.ok none ∧
    getCurrentActivity ⟨6, 0⟩ [("06:00-07:00", "breakfast")] = Except.ok (some "breakfast") ∧
    getCurrentActivity ⟨7, 0⟩ [("06:00-07:00", "breakfast")] = Except.ok (some "breakfast") := by
  refine ⟨rfl, rfl, rfl, rfl⟩

/-- C8: the activity lookup is a pure function of the timestamp and the
schedule — two runs on equal inputs, one modelled run after another,
give equal results, with no dependence on any other state. -/
theorem c8_activity_lookup_pure (now now' : TimeOfDay)
    (sched sched' : List (String × String))
    (hn : now = now') (hs : sched = sched') :
    getCurrentActivity now sched = getCurrentActivity now' sched' := by
  rw [hn, hs]

/-- Witness for C8 at a concrete timestamp and schedule. -/
theorem c8_activity_lookup_pure_witness :
    (⟨9, 15⟩ : TimeOfDay) = ⟨9, 15⟩ ∧
    ([("09:00-10:00", "gym")] : List (String × String)) = [("09:00-10:00", "gym")] ∧
    getCurrentActivity ⟨9, 15⟩ [("09:00-10:00", "gym")] =
      getCurrentActivity ⟨9, 15⟩ [("09:00-10:00", "gym")] :=
  ⟨rfl, rfl, c8_activity_lookup_pure ⟨9, 15⟩ ⟨9, 15⟩ [("09:00-10:00", "gym")]
    [("09:00-10:00", "gym")] rfl rfl⟩

/-- `dropWhile` does not touch a run of `'a'`s. -/
theorem dropWhile_replicate_a (k : Nat) :
    List.dropWhile isPySpace (List.replicate k 'a') = List.replicate k 'a' := by
  cases k with
  | zero => rfl
  | succ n => rw [List.replicate_succ, List.dropWhile_cons]; rfl

/-- `pyStrip` leaves a run of `'a'`s unchanged. -/
theorem pyStrip_replicate_a (k : Nat) :
    pyStrip (String.mk (List.replicate k 'a')) = String.mk (List.replicate k 'a') := by
  show String.mk
      ((((List.replicate k 'a').dropWhile isPySpace).reverse.dropWhile isPySpace).reverse) =
    String.mk (List.replicate k 'a')
  rw [dropWhile_replicate_a, List.reverse_replicate, dropWhile_replicate_a,
    List.reverse_replicate]

/-- A non-empty run of `'a'`s is not blank. -/
theorem replicate_a_not_blank (n : Nat) :
    pyStrip (String.mk (List.replicate (n + 1) 'a')) ≠ "" := by
  rw [pyStrip_replicate_a]
  intro h
  have h2 : List.replicate (n + 1) 'a' = ([] : List Char) := congrArg String.data h
  simp [List.replicate_succ] at h2

/-- Length of a string built from a replicated character. -/
theorem length_mk_replicate (k : Nat) :
    (String.mk (List.replicate k 'a')).length = k := by
  show (List.replicate k 'a').length = k
  exact List.length_replicate k 'a'

/-- C4 counterexample: a 5001-character reply makes `synthesize` raise a
plain `ValueError`, not the `TextToSpeechError` the claim names. -/
theorem c4_counterexample_value_error_not_tts :
    isTextToSpeechError
      (synthesize (String.mk (List.replicate 5001 'a')) (Except.ok [97])).result = false ∧
    (synthesize (String.mk (List.replicate 5001 'a')) (Except.ok [97])).result =
      Except.error
        (PyError.valueError "Input length exceeds maximum length of 5000 characters.") := by
  have h1 : pyStrip (String.mk (List.replicate 5001 'a')) ≠ "" := replicate_a_not_blank 5000
  have h2 : 5000 < (String.mk (List.replicate 5001 'a')).length := by
    rw [length_mk_replicate]
    norm_num
  have key : synthesize (String.mk (List.replicate 5001 'a')) (Except.ok [97]) =
      ⟨false, Except.error
        (PyError.valueError "Input length exceeds maximum length of 5000 characters.")⟩ := by
    unfold synthesize
    rw [if_neg h1, if_pos h2]
  rw [key]
  exact ⟨rfl, rfl⟩

/-- C4 (amended): a reply longer than 5000 characters fails with a
`ValueError` before any external call — it is never silently truncated —
while a reply of length at most 5000 passes the length validation and
reaches the external synthesis call. -/
theorem c4_overlength_fails_validation :
    (∀ (text : String) (ext : Except String (List Nat)),
      pyStrip text ≠ "" → 5000 < text.length →
      synthesize text ext =
        ⟨false, Except.error
          (PyError.valueError "Input length exceeds maximum length of 5000 characters.")⟩) ∧
    (∀ (text : String) (ext : Except String (List Nat)),
      pyStrip text ≠ "" → text.length ≤ 5000 →
      (synthesize text ext).externalCalled = true) := by
  constructor
  · intro text ext hne hlen
    simp [synthesize, hne, hlen]
  · intro text ext hne hlen
    have hnl : ¬ (5000 < text.length) := not_lt.mpr hlen
    simp [synthesize, hne, hnl]
    cases ext with
    | error msg => rfl
    | ok audioData =>
      by_cases hz : audioData = [] <;> simp [hz]

/-- Witness for C4 at a 5001-character and a 5-character input. -/
theorem c4_overlength_fails_validation_witness :
    pyStrip (String.mk (List.replicate 5001 'a')) ≠ "" ∧
    5000 < (String.mk (List.replicate 5001 'a')).length ∧
    synthesize (String.mk (List.replicate 5001 'a')) (Except.ok [97]) =
      ⟨false, Except.error
        (PyError.valueError "Input length exceeds maximum length of 5000 characters.")⟩ ∧
    pyStrip "hello" ≠ "" ∧ ("hello" : String).length ≤ 5000 ∧
    (synthesize "hello" (Except.ok [97])).externalCalled = true :=
  ⟨replicate_a_not_blank 5000,
    by rw [length_mk_replicate]; norm_num,
    c4_overlength_fails_validation.1 (String.mk (List.replicate 5001 'a'))
      (Except.ok [97]) (replicate_a_not_blank 5000) (by rw [length_mk_replicate]; norm_num),
    by decide, by decide,
    c4_overlength_fails_validation.2 "hello" (Except.ok [97]) (by decide) (by decide)⟩

/-- C5: a blank (empty or whitespace-only) input makes `synthesize`
raise the validation `ValueError` with no external call issued; the
result does not depend on what the external collaborator would have
returned. -/
theorem c5_blank_text_no_external_call (text : String)
    (ext : Except String (List Nat)) (h : pyStrip text = "") :
    synthesize text ext =
      ⟨false, Except.error (PyError.valueError "Input text cannot be empty.")⟩ := by
  simp [synthesize, h]

/-- Witness for C5 at a whitespace-only input. -/
theorem c5_blank_text_no_external_call_witness :
    pyStrip "  " = "" ∧
    synthesize "  " (Except.ok [1]) =
      ⟨false, Except.error (PyError.valueError "Input text cannot be empty.")⟩ :=
  ⟨rfl, c5_blank_text_no_external_call "  " (Except.ok [1]) rfl⟩

/-- C6: a blank image prompt is rejected with the validation
`ValueError` before the Gemini call is made, and a failure of the
external call itself is surfaced as `TextToImageError`. -/
theorem c6_blank_prompt_rejected_before_call :
    (∀ (prompt : String) (ext : Except String (List Nat)), pyStrip prompt = "" →
      generate_image prompt ext =
        ⟨false, Except.error (PyError.valueError "Prompt cannot be empty")⟩) ∧
    (∀ (prompt msg : String), pyStrip prompt ≠ "" →
      generate_image prompt (Except.error msg) =
        ⟨true, Except.error
          (PyError.textToImageError ("Failed to generate image: " ++ msg))⟩) := by
  constructor
  · intro prompt ext h
    simp [generate_image, h]
  · intro prompt msg h
    simp [generate_image, h]

/-- Witness for C6 at a blank and a non-blank prompt. -/
theorem c6_blank_prompt_rejected_before_call_witness :
    pyStrip " " = "" ∧
    generate_image " " (Except.ok [3]) =
      ⟨false, Except.error (PyError.valueError "Prompt cannot be empty")⟩ ∧
    pyStrip "a cat" ≠ "" ∧
    generate_image "a cat" (Except.error "boom") =
      ⟨true, Except.error
        (PyError.textToImageError ("Failed to generate image: " ++ "boom"))⟩ :=
  ⟨rfl, c6_blank_prompt_rejected_before_call.1 " " (Except.ok [3]) rfl,
    by decide, c6_blank_prompt_rejected_before_call.2 "a cat" "boom" (by decide)⟩

/-- The scan copies an asterisk-free prefix unchanged. -/
theorem subAsteriskAux_none_append (pre l : List Char) (h : '*' ∉ pre) :
    subAsteriskAux none (pre ++ l) = pre ++ subAsteriskAux none l := by
  induction pre with
  | nil => rfl
  | cons c rest ih =>
    have hc : ¬ (c = '*') := by
      intro e
      exact h (by rw [e]; exact List.mem_cons_self '*' rest)
    have hr : '*' ∉ rest := fun hm => h (List.mem_cons_of_mem c hm)
    rw [List.cons_append]
    simp only [subAsteriskAux, if_neg hc]
    rw [ih hr]
    exact (List.cons_append c rest (subAsteriskAux none l)).symm

/-- An open span whose body is free of `*` and of newlines is closed by
the next `*`, dropping the whole span. -/
theorem subAsteriskAux_close (mid : List Char) :
    ∀ (buf post : List Char), '*' ∉ mid → '\n' ∉ mid →
      subAsteriskAux (some buf) (mid ++ '*' :: post) = subAsteriskAux none post := by
  induction mid with
  | nil =>
    intro buf post _ _
    rfl
  | cons c rest ih =>
    intro buf post hm hn
    have hc : ¬ (c = '*') := by
      intro e
      exact hm (by rw [e]; exact List.mem_cons_self '*' rest)
    have hnl : ¬ (c = '\n') := by
      intro e
      exact hn (by rw [e]; exact List.mem_cons_self '\n' rest)
    have hm' : '*' ∉ rest := fun hmem => hm (List.mem_cons_of_mem c hmem)
    have hn' : '\n' ∉ rest := fun hmem => hn (List.mem_cons_of_mem c hmem)
    rw [List.cons_append]
    simp only [subAsteriskAux, if_neg hc, if_neg hnl]
    exact ih (c :: buf) post hm' hn'

/-- C7 counterexample: a span whose body crosses a newline is *not*
removed, because `.` in the source's regex does not match `\n`; the
asterisk-delimited span survives in the reply verbatim. -/
theorem c7_counterexample_newline_span_kept :
    remove_asterisk_content "*a\nb*" = "*a\nb*" := by
  decide

/-- C7 (amended): the reply parser removes every *newline-free* span of
text delimited by a single pair of asterisk marker characters (the
regex's `.` does not cross newlines), and strips surrounding whitespace:
removing such a span gives the same reply as if it had never been
present. -/
theorem c7_newline_free_asterisk_span_removed (pre mid post : List Char)
    (hpre : '*' ∉ pre) (hmid : '*' ∉ mid) (hnl : '\n' ∉ mid) :
    remove_asterisk_content (String.mk (pre ++ ('*' :: (mid ++ ('*' :: post))))) =
      remove_asterisk_content (String.mk (pre ++ post)) := by
  show pyStrip (String.mk (subAsteriskAux none (pre ++ ('*' :: (mid ++ ('*' :: post)))))) =
    pyStrip (String.mk (subAsteriskAux none (pre ++ post)))
  rw [subAsteriskAux_none_append pre _ hpre, subAsteriskAux_none_append pre _ hpre]
  have hopen : subAsteriskAux none ('*' :: (mid ++ ('*' :: post))) =
      subAsteriskAux (some []) (mid ++ ('*' :: post)) := rfl
  rw [hopen, subAsteriskAux_close mid [] post hmid hnl]

/-- Witness for C7: the stage direction `*waves*` is stripped out of
`hi *waves*!`. -/
theorem c7_newline_free_asterisk_span_removed_witness :
    ('*' ∉ ['h', 'i', ' ']) ∧ ('*' ∉ ['w', 'a', 'v', 'e', 's']) ∧
    ('\n' ∉ ['w', 'a', 'v', 'e', 's']) ∧
    remove_asterisk_content
        (String.mk
          (['h', 'i', ' '] ++ ('*' :: (['w', 'a', 'v', 'e', 's'] ++ ('*' :: ['!']))))) =
      remove_asterisk_content (String.mk (['h', 'i', ' '] ++ ['!'])) :=
  ⟨by decide, by decide, by decide,
    c7_newline_free_asterisk_span_removed ['h', 'i', ' '] ['w', 'a', 'v', 'e', 's'] ['!']
      (by decide) (by decide) (by decide)⟩

/-- C1: the branch after memory injection is a pure function of the
`workflow` field — states agreeing on `workflow` take the same branch —
and exactly one of the three generation stages is selected, with
`conversation` whenever the classifier label is neither `"image"` nor
`"audio"`. -/
theorem c1_exactly_one_generation_stage (s t : AICompanionState)
    (h : s.workflow = t.workflow) :
    select_workflow s = select_workflow t ∧
    (([GenStage.conversation, GenStage.image, GenStage.audio].filter
      (fun g => select_workflow s = g)).length = 1) ∧
    (s.workflow ≠ "image" → s.workflow ≠ "audio" →
      select_workflow s = GenStage.conversation) := by
  refine ⟨by unfold select_workflow; rw [h], ?_, ?_⟩
  · unfold select_workflow
    by_cases hi : s.workflow = "image"
    · simp [hi]
    · by_cases ha : s.workflow = "audio" <;> simp [hi, ha]
  · intro hi ha
    unfold select_workflow
    rw [if_neg hi, if_neg ha]

/-- Witness for C1 at a concrete pair of states sharing `workflow`. -/
theorem c1_exactly_one_generation_stage_witness :
    (AICompanionState.mk [("human", "hi")] "" "chat" [] "" "" false "").workflow =
      (AICompanionState.mk [] "s" "chat" [0] "p" "act" true "mem").workflow ∧
    (select_workflow (AICompanionState.mk [("human", "hi")] "" "chat" [] "" "" false "") =
        select_workflow (AICompanionState.mk [] "s" "chat" [0] "p" "act" true "mem") ∧
      (([GenStage.conversation, GenStage.image, GenStage.audio].filter
        (fun g =>
          select_workflow (AICompanionState.mk [("human", "hi")] "" "chat" [] "" "" false "") =
            g)).length = 1) ∧
      ((AICompanionState.mk [("human", "hi")] "" "chat" [] "" "" false "").workflow ≠ "image" →
        (AICompanionState.mk [("human", "hi")] "" "chat" [] "" "" false "").workflow ≠ "audio" →
        select_workflow (AICompanionState.mk [("human", "hi")] "" "chat" [] "" "" false "") =
          GenStage.conversation)) :=
  ⟨rfl, c1_exactly_one_generation_stage
    (AICompanionState.mk [("human", "hi")] "" "chat" [] "" "" false "")
    (AICompanionState.mk [] "s" "chat" [0] "p" "act" true "mem") rfl⟩

/-- C9: an authenticated Telegram POST update is answered with the early
`200 "Received Telegram data"` response and an *empty* effect trace —
the compiled graph is never invoked and nothing is rendered back to the
user, whatever the rest of the handler would have done. -/
theorem c9_authenticated_post_never_reaches_graph :
    telegram_handler "POST" (some "secret") (some "secret")
      (⟨"Message processed", 200⟩,
        [TgAction.invokeGraph "hello", TgAction.sendResponse "text"]) =
    (⟨"Received Telegram data", 200⟩, []) := by
  decide

/-- C10: the built graph references node names that were never
registered — the conditional-edge source `"audio_node"` (the node was
registered as `"audio_mode"`) and the edge source
`"summarize_conversation_node"` — so not every transition endpoint
exists among the registered nodes. -/
theorem c10_edge_references_unregistered_nodes :
    ("audio_node" ∈ workflowConditionalEdgeSources ∧
      "audio_node" ∉ workflowGraphNodes) ∧
    ("summarize_conversation_node" ∈ workflowGraphEdges.map Prod.fst ∧
      "summarize_conversation_node" ∉ workflowGraphNodes) ∧
    ("audio_node" ∈ referencedNodeNames ∧
      "summarize_conversation_node" ∈ referencedNodeNames) := by
  decide

end Tela
